import Mathlib

/-!
Verification development for the conversation-client / spam-scoring
repository.  The Python sources are shallowly embedded as executable Lean
definitions:

* `ScoreExtractor.parse` embeds the response-parsing logic of
  `SpamDetector.analyze_email` (src/spam_detection.py, lines 70-80):
  `re.findall(r'\d+(?:\.\d+)?', text)`, first match converted with
  `float`, then `max(0, min(100, pct))`; `0.0` when no match.
* The conversation client (`Message`, `Conversation`, `AIClient`) is
  embedded further below with explicit state passing; impure id/time
  generation (`uuid`, `datetime.now`) is threaded through a `Gen` supply,
  and the remote backend is a function parameter returning `Except`.

Floats carry only small decimal literals in every behaviour the spec
mentions, so they are modelled exactly by `Rat`.
-/

namespace SpamRepo

/-- Maximal run of decimal digits at the head of the character list,
together with the remainder.  Models the greedy `\d+` step of the regex
`\d+(?:\.\d+)?` used in `SpamDetector.analyze_email`. -/
def digitsHead : List Char → List Char × List Char
  | [] => ([], [])
  | c :: rest =>
    if c.isDigit then
      let p := digitsHead rest
      (c :: p.1, p.2)
    else ([], c :: rest)

/-- Given the remainder after an integer part, the optional fractional part
`(?:\.\d+)?`: a dot immediately followed by at least one digit extends the
match, anything else contributes nothing. -/
def fracPart (cs : List Char) : List Char :=
  match cs with
  | '.' :: rest =>
    let p := digitsHead rest
    if p.1 = [] then [] else '.' :: p.1
  | _ => []

/-- First (leftmost) match of `\d+(?:\.\d+)?` in the text, as
`re.findall(...)[0]` would return it; `none` when the text has no digit. -/
def findNumeral : List Char → Option String
  | [] => none
  | c :: rest =>
    if c.isDigit then
      let p := digitsHead (c :: rest)
      some (String.mk (p.1 ++ fracPart p.2))
    else findNumeral rest

/-- Value of a digit character. -/
def digitVal (c : Char) : Nat := c.toNat - '0'.toNat

/-- Value of a digit string, as Python `int`/`float` read the integer part. -/
def natOfDigits (cs : List Char) : Nat :=
  cs.foldl (fun a c => a * 10 + digitVal c) 0

/-- Exact value of a matched numeral `digits` or `digits.digits`, as
the Python `float` conversion reads it (every matched numeral is a plain unsigned
decimal). -/
def ratOfNumeral (s : String) : Rat :=
  match s.toList.span (fun c => c ≠ '.') with
  | (intPart, []) => (natOfDigits intPart : Rat)
  | (intPart, _dot :: frac) =>
    mkRat (Int.ofNat (natOfDigits intPart * 10 ^ frac.length + natOfDigits frac))
      (10 ^ frac.length)

/-- The Python two-argument `min`: the second argument when it is strictly
smaller, the first otherwise. -/
def pymin (a b : Rat) : Rat := if b < a then b else a

/-- The Python two-argument `max`: the second argument when it is strictly
larger, the first otherwise. -/
def pymax (a b : Rat) : Rat := if a < b then b else a

namespace ScoreExtractor

/-- The `ScoreExtractor.parse` of the spec, embedding the parsing portion of
`SpamDetector.analyze_email` (src/spam_detection.py lines 70-80):
`numbers = re.findall(r'\d+(?:\.\d+)?', text)`; if non-empty,
`pct = float(numbers[0]); pct = max(0, min(100, pct)); return pct`;
otherwise `return 0.0`. -/
def parse (text : String) : Rat :=
  match findNumeral text.toList with
  | some n => pymax 0 (pymin 100 (ratOfNumeral n))
  | none => 0

end ScoreExtractor

example : ScoreExtractor.parse "75% probability of spam" = 75 := by decide
example : ScoreExtractor.parse "This looks legitimate." = 0 := by decide
example : ScoreExtractor.parse "150" = 100 := by decide
example : ScoreExtractor.parse "-10" = 10 := by decide

/-! ## Conversation client (src/ai_conversation_client/__init__.py)

The impure ingredients of the Python constructors — `uuid`-generated ids
and `datetime.now()` — are threaded through a `Gen` supply.  The remote
OpenAI call is a function parameter returning `Except`; the catch-all
`except` block of `send_message` corresponds to its `error` case. -/

/-- Supply for fresh ids (a counter standing in for `uuid`) and the current
instant (standing in for `datetime.now()`). -/
structure Gen where
  ctr : Nat
  time : Nat
deriving DecidableEq

/-- `MessageRole` enum (src/ai_conversation_client/__init__.py lines 22-27). -/
inductive MessageRole
  | system
  | user
  | assistant
  | function
deriving DecidableEq

/-- The `.value` of a role, its lowercase string. -/
def MessageRole.value : MessageRole → String
  | .system => "system"
  | .user => "user"
  | .assistant => "assistant"
  | .function => "function"

/-- `MessageRole(s)`: the enum member with value `s`, or `none` where Python
raises `ValueError`. -/
def MessageRole.ofValue (s : String) : Option MessageRole :=
  if s = "system" then some .system
  else if s = "user" then some .user
  else if s = "assistant" then some .assistant
  else if s = "function" then some .function
  else none

/-- A conversation message (class `Message`, lines 30-91). -/
structure Message where
  content : String
  role : MessageRole
  id : String
  timestamp : Nat
deriving DecidableEq

/-- `Message.__init__` (lines 33-47).  Python truthiness: a `message_id`
that is `None` or `""` is replaced by a generated id; a missing timestamp
becomes `datetime.now()` (datetimes are always truthy).  The content is
stored verbatim — the constructor performs no validation or trimming. -/
def Message.init (g : Gen) (content : String) (role : MessageRole)
    (message_id : Option String) (timestamp : Option Nat) : Message × Gen :=
  match message_id with
  | some s =>
    if s = "" then
      (⟨content, role, "msg_" ++ toString g.ctr, timestamp.getD g.time⟩, ⟨g.ctr + 1, g.time⟩)
    else
      (⟨content, role, s, timestamp.getD g.time⟩, g)
  | none =>
    (⟨content, role, "msg_" ++ toString g.ctr, timestamp.getD g.time⟩, ⟨g.ctr + 1, g.time⟩)

/-- `Message.to_dict` (lines 69-74): the `{role, content}` pair sent to the
API. -/
def Message.to_dict (m : Message) : String × String := (m.role.value, m.content)

/-- A conversation (class `Conversation`, lines 94-193). -/
structure Conversation where
  id : String
  title : String
  messages : List Message
deriving DecidableEq

/-- `Conversation.add_message` (lines 131-138): append to the stored list. -/
def Conversation.add_message (c : Conversation) (m : Message) : Conversation :=
  { c with messages := c.messages ++ [m] }

/-- `Conversation.__init__` (lines 97-114).  A falsy (absent or empty) id or
title is replaced by a generated id resp. a derived title; a truthy
`system_prompt` is appended as the single seeded system message. -/
def Conversation.init (g : Gen) (conversation_id : Option String)
    (title : Option String) (system_prompt : Option String) : Conversation × Gen :=
  let idg : String × Gen :=
    match conversation_id with
    | some s =>
      if s = "" then ("conv_" ++ toString g.ctr, ⟨g.ctr + 1, g.time⟩) else (s, g)
    | none => ("conv_" ++ toString g.ctr, ⟨g.ctr + 1, g.time⟩)
  let theTitle : String :=
    match title with
    | some s => if s = "" then "Conversation " ++ idg.1 else s
    | none => "Conversation " ++ idg.1
  match system_prompt with
  | some p =>
    if p = "" then (⟨idg.1, theTitle, []⟩, idg.2)
    else
      let mg := Message.init idg.2 p .system none none
      (⟨idg.1, theTitle, [mg.1]⟩, mg.2)
  | none => (⟨idg.1, theTitle, []⟩, idg.2)

/-- Serialized message record, a Python dict whose keys may be absent. -/
structure MessageDict where
  id : Option String
  content : Option String
  role : Option String
  timestamp : Option String
deriving DecidableEq

/-- Serialized conversation record. -/
structure ConversationDict where
  id : Option String
  title : Option String
  messages : List MessageDict
deriving DecidableEq

/-- `datetime.isoformat`, abstracted over the modelled instants. -/
def isoformat (t : Nat) : String := toString t

/-- `datetime.fromisoformat`, `none` where Python raises `ValueError`. -/
def fromisoformat (s : String) : Option Nat := s.toNat?

/-- The per-message record built inside `Conversation.to_dict`
(lines 157-165). -/
def msgToDict (m : Message) : MessageDict :=
  ⟨some m.id, some m.content, some m.role.value, some (isoformat m.timestamp)⟩

/-- `Conversation.to_dict` (lines 152-166). -/
def Conversation.to_dict (c : Conversation) : ConversationDict :=
  ⟨some c.id, some c.title, c.messages.map msgToDict⟩

/-- The timestamp argument passed to `Message` inside
`Conversation.from_dict` (lines 182-188): absent or falsy string gives
`None`; a present string is parsed, falling back to `datetime.now()` on
`ValueError`. -/
def parseTimestamp (g : Gen) (ts : Option String) : Option Nat :=
  match ts with
  | none => none
  | some s => if s = "" then none else some ((fromisoformat s).getD g.time)

/-- The message loop of `Conversation.from_dict` (lines 176-191):
`MessageRole(msg_data.get("role", "user"))` raises `ValueError` on an
unknown role string, which aborts the whole load. -/
def Conversation.from_dictMsgs (c : Conversation) (g : Gen) :
    List MessageDict → Except String (Conversation × Gen)
  | [] => .ok (c, g)
  | dm :: rest =>
    match MessageRole.ofValue (dm.role.getD "user") with
    | none => .error ("invalid role: " ++ dm.role.getD "user")
    | some role =>
      let mg := Message.init g (dm.content.getD "") role dm.id (parseTimestamp g dm.timestamp)
      Conversation.from_dictMsgs (c.add_message mg.1) mg.2 rest

/-- `Conversation.from_dict` (lines 168-193): build via
`cls(conversation_id, title)` (no system prompt), then append the message of
each record. -/
def Conversation.from_dict (g : Gen) (d : ConversationDict) :
    Except String (Conversation × Gen) :=
  let cg := Conversation.init g d.id d.title none
  Conversation.from_dictMsgs cg.1 cg.2 d.messages

/-- The `self._conversations` dict: an insertion-ordered association list. -/
abbrev ConvStore := List (String × Conversation)

/-- `d[k]` lookup (`dict.get`). -/
def dictGet (d : ConvStore) (k : String) : Option Conversation :=
  (d.find? fun p => p.1 == k).map (·.2)

/-- `d[k] = v`: overwrite in place when the key exists, append otherwise. -/
def dictSet (d : ConvStore) (k : String) (v : Conversation) : ConvStore :=
  if d.any (fun p => p.1 == k) then
    d.map fun p => if p.1 == k then (k, v) else p
  else d ++ [(k, v)]

/-- The mutable state of `AIClient` that the claims concern: its
conversation collection (line 219). -/
structure AIClient where
  conversations : ConvStore
deriving DecidableEq

/-- `AIClient.get_conversation` (lines 241-251). -/
def AIClient.get_conversation (st : AIClient) (cid : String) : Option Conversation :=
  dictGet st.conversations cid

/-- `AIClient.create_conversation` (lines 225-239). -/
def AIClient.create_conversation (st : AIClient) (g : Gen)
    (title system_prompt : Option String) : Conversation × AIClient × Gen :=
  let cg := Conversation.init g none title system_prompt
  (cg.1, ⟨dictSet st.conversations cg.1.id cg.1⟩, cg.2)

/-- The remote chat-completion call: from the prepared `(role, content)`
history to the response content, `error` where the provider raises. -/
abbrev Backend := List (String × String) → Except String String

/-- Error outcomes of `AIClient.send_message`: the distinct raise sites of
the Python code, the ValueError raise for a conversation id that is not
found (the NotFoundError of the spec) and the ConnectionError wrap of any
backend exception (the BackendError of the spec). -/
inductive ClientError
  | notFound (conversation_id : String)
  | backend (msg : String)
deriving DecidableEq

/-- `AIClient.send_message` (lines 262-310).  The state and supply are
returned alongside the outcome because a Python exception leaves the
already-performed mutations in place: the user message is appended before
the API call and is not rolled back on failure. -/
def AIClient.send_message (st : AIClient) (g : Gen) (backend : Backend)
    (conversation_id content : String) : AIClient × Gen × Except ClientError Message :=
  match AIClient.get_conversation st conversation_id with
  | none => (st, g, .error (.notFound conversation_id))
  | some conversation =>
    let umg := Message.init g content .user none none
    let conv1 := conversation.add_message umg.1
    let st1 : AIClient := ⟨dictSet st.conversations conversation_id conv1⟩
    match backend (conv1.messages.map Message.to_dict) with
    | .error e =>
      (st1, umg.2, .error (.backend ("Error communicating with OpenAI API: " ++ e)))
    | .ok response_content =>
      let amg := Message.init umg.2 response_content .assistant none none
      (⟨dictSet st1.conversations conversation_id (conv1.add_message amg.1)⟩,
        amg.2, .ok amg.1)

/-- `AIClient.load_conversations` (lines 375-393), applied to the parsed
record list: each record is deserialized and stored under the resulting
id of the resulting conversation.  A malformed record aborts the loop (Python wraps the
exception in `IOError`) but the conversations already stored stay stored —
`self._conversations` was mutated in place. -/
def AIClient.load_conversations (st : AIClient) (g : Gen) :
    List ConversationDict → AIClient × Gen × Except String Unit
  | [] => (st, g, .ok ())
  | d :: rest =>
    match Conversation.from_dict g d with
    | .error e => (st, g, .error e)
    | .ok cg =>
      AIClient.load_conversations ⟨dictSet st.conversations cg.1.id cg.1⟩ cg.2 rest

/-! ## Batch spam analysis (src/spam_detection.py)

`SpamDetector` holds one `OpenAIClient` (whose `send_message`,
src/ai_conversation_client/providers/openai.py lines 46-97, is line for
line the `AIClient.send_message` embedded above) and one shared scoring
conversation.  The external service may answer each physical call
differently, so the batch is parameterized by an indexed family of
backends, one per call. -/

/-- An inbox item as the email-source collaborator yields it: identifier
and body. -/
structure EmailMessage where
  id : String
  body : String
deriving DecidableEq

namespace SpamDetector

/-- `SpamDetector.analyze_email` (src/spam_detection.py lines 54-85):
build the scoring prompt, send it on the shared conversation, parse the
response; any exception from the send is caught and scored `0.0`.  The
mutations `send_message` performed before raising persist. -/
def analyze_email (st : AIClient) (g : Gen) (backend : Backend)
    (cid : String) (email_body : String) : Rat × AIClient × Gen :=
  let prompt := "Email content: " ++ email_body ++
    "\n\nBased on this email, what is the probability (0-100) that this is spam?"
  let r := AIClient.send_message st g backend cid prompt
  match r.2.2 with
  | .ok resp => (ScoreExtractor.parse resp.content, r.1, r.2.1)
  | .error _ => ((0 : Rat), r.1, r.2.1)

/-- Modelled from the spec: the email-source collaborator's
`get_messages(folder, limit)`, specified only at its interface boundary —
it yields the messages of the folder, bounded by `limit` when given. -/
def get_messages (msgs : List EmailMessage) (limit : Option Nat) : List EmailMessage :=
  match limit with
  | some k => msgs.take k
  | none => msgs

/-- The per-item loop of `SpamDetector.analyze_inbox` (lines 111-129):
one result row per message; call `i` uses backend `oracle i`.  The outer
`try/except` of the loop body is unreachable — `analyze_email` already
catches every exception and the append itself cannot raise — so the loop
always appends the `analyze_email` score. -/
def analyze_inboxLoop (oracle : Nat → Backend) (cid : String) :
    List EmailMessage → Nat → AIClient → Gen → List (String × Rat) × AIClient × Gen
  | [], _, st, g => ([], st, g)
  | m :: rest, i, st, g =>
    let r := analyze_email st g (oracle i) cid m.body
    let rr := analyze_inboxLoop oracle cid rest (i + 1) r.2.1 r.2.2
    ((m.id, r.1) :: rr.1, rr.2)

/-- `SpamDetector.analyze_inbox` (lines 98-131): fetch the folder's
messages (bounded by `limit`) and score each in order. -/
def analyze_inbox (oracle : Nat → Backend) (cid : String) (st : AIClient)
    (g : Gen) (msgs : List EmailMessage) (limit : Option Nat) :
    List (String × Rat) × AIClient × Gen :=
  analyze_inboxLoop oracle cid (get_messages msgs limit) 0 st g

end SpamDetector

/-! ## A small object heap for the defensive-copy property

Python lists are mutable objects; `Conversation.messages` returns
`self._messages.copy()` (lines 126-129).  To state that mutating the
returned list never affects the stored one, list objects live in an
explicit heap of cells addressed by allocation order. -/

namespace PyHeap

/-- A heap of list objects; a reference is an index into `cells`. -/
structure Heap where
  cells : List (List Message)
deriving DecidableEq

/-- Allocate a fresh list object holding `v`. -/
def alloc (h : Heap) (v : List Message) : Nat × Heap :=
  (h.cells.length, ⟨h.cells ++ [v]⟩)

/-- Dereference. -/
def read (h : Heap) (r : Nat) : List Message :=
  (h.cells[r]?).getD []

/-- In-place mutation of the list object behind `r` (covers `append`,
`remove`, `sort`, slice assignment — any rewrite of the contents). -/
def write (h : Heap) (r : Nat) (v : List Message) : Heap :=
  ⟨h.cells.set r v⟩

/-- The `Conversation.messages` property (lines 126-129):
`return self._messages.copy()` — read the stored list object and allocate
a fresh object with the same elements. -/
def messagesProp (h : Heap) (stored : Nat) : Nat × Heap :=
  alloc h (read h stored)

end PyHeap

/-! ## Helper lemmas -/

theorem findNumeral_eq_none (cs : List Char) (h : ∀ c ∈ cs, c.isDigit = false) :
    findNumeral cs = none := by
  induction cs with
  | nil => rfl
  | cons c rest ih =>
    have hc : c.isDigit = false := h c (List.mem_cons_self c rest)
    simp only [findNumeral, hc, Bool.false_eq_true, if_false]
    exact ih fun x hx => h x (List.mem_cons_of_mem c hx)

theorem parse_bounds (s : String) :
    0 ≤ ScoreExtractor.parse s ∧ ScoreExtractor.parse s ≤ 100 := by
  unfold ScoreExtractor.parse
  cases h : findNumeral s.toList with
  | none => norm_num
  | some n =>
    simp only [pymax, pymin]
    refine ⟨?_, ?_⟩ <;> split_ifs <;> linarith

theorem Message.init_content (g : Gen) (content : String) (role : MessageRole)
    (mid : Option String) (ts : Option Nat) :
    (Message.init g content role mid ts).1.content = content ∧
    (Message.init g content role mid ts).1.role = role := by
  unfold Message.init
  cases mid with
  | none => exact ⟨rfl, rfl⟩
  | some s => by_cases hs : s = "" <;> simp [hs]

theorem find?_map_overwrite (d : ConvStore) (k : String) (v : Conversation)
    (h : d.any (fun p => p.1 == k) = true) :
    (d.map fun p => if p.1 == k then (k, v) else p).find? (fun p => p.1 == k)
      = some (k, v) := by
  induction d with
  | nil => simp at h
  | cons p rest ih =>
    simp only [List.map_cons]
    by_cases hp : (p.1 == k) = true
    · rw [if_pos hp]
      rw [List.find?_cons_of_pos _ (by simp)]
    · rw [if_neg hp]
      rw [List.find?_cons_of_neg _ (by simpa using hp)]
      have hr : rest.any (fun p => p.1 == k) = true := by
        simpa [List.any_cons, hp] using h
      exact ih hr

theorem find?_append_singleton_ne (d : ConvStore) (k k' : String) (v : Conversation)
    (h : (k == k') = false) :
    (d ++ [(k, v)]).find? (fun p => p.1 == k') = d.find? (fun p => p.1 == k') := by
  induction d with
  | nil => simp [List.find?, h]
  | cons p rest ih =>
    by_cases hp : (p.1 == k') = true <;> simp [List.find?_cons, hp, ih]

theorem find?_append_singleton_all_false (d : ConvStore) (k : String) (v : Conversation)
    (hall : ∀ x ∈ d, (x.1 == k) = false) :
    (d ++ [(k, v)]).find? (fun p => p.1 == k) = some (k, v) := by
  induction d with
  | nil => simp [List.find?]
  | cons p rest ih =>
    have hp := hall p (List.mem_cons_self p rest)
    simp only [List.cons_append, List.find?_cons, hp, cond_false]
    exact ih fun x hx => hall x (List.mem_cons_of_mem p hx)

theorem dictGet_dictSet_self (d : ConvStore) (k : String) (v : Conversation) :
    dictGet (dictSet d k v) k = some v := by
  unfold dictGet dictSet
  by_cases h : d.any (fun p => p.1 == k) = true
  · rw [if_pos h, find?_map_overwrite d k v h]
    rfl
  · rw [if_neg h]
    have hall : ∀ x ∈ d, (x.1 == k) = false := by
      intro x hx
      by_contra hc
      exact h (List.any_eq_true.mpr ⟨x, hx, by simpa using hc⟩)
    rw [find?_append_singleton_all_false d k v hall]
    rfl

theorem find?_map_overwrite_ne (d : ConvStore) (k k' : String) (v : Conversation)
    (h : k' ≠ k) :
    (d.map fun p => if p.1 == k then (k, v) else p).find? (fun p => p.1 == k')
      = d.find? (fun p => p.1 == k') := by
  induction d with
  | nil => rfl
  | cons p rest ih =>
    simp only [List.map_cons]
    by_cases hp : (p.1 == k) = true
    · have hp' : p.1 = k := by simpa using hp
      have hk : ((k : String) == k') = false := by
        simp only [beq_eq_false_iff_ne]
        exact fun hkk => h hkk.symm
      have hq : (p.1 == k') = false := by rw [hp']; exact hk
      rw [if_pos hp]
      simp only [List.find?_cons, hk, hq, ih]
    · rw [if_neg hp]
      by_cases hq : (p.1 == k') = true
      · simp only [List.find?_cons, hq]
      · have hq' : (p.1 == k') = false := by simpa using hq
        simp only [List.find?_cons, hq', ih]

theorem dictGet_dictSet_ne (d : ConvStore) (k k' : String) (v : Conversation)
    (h : k' ≠ k) : dictGet (dictSet d k v) k' = dictGet d k' := by
  unfold dictGet dictSet
  by_cases ha : d.any (fun p => p.1 == k) = true
  · rw [if_pos ha, find?_map_overwrite_ne d k k' v h]
  · rw [if_neg ha, find?_append_singleton_ne d k k' v]
    simp only [beq_eq_false_iff_ne]
    exact fun hkk => h hkk.symm

theorem send_message_not_found_eq (st : AIClient) (g : Gen) (backend : Backend)
    (cid content : String) (h : AIClient.get_conversation st cid = none) :
    AIClient.send_message st g backend cid content = (st, g, .error (.notFound cid)) := by
  unfold AIClient.send_message
  rw [h]

theorem send_message_found_error (st : AIClient) (g : Gen) (backend : Backend)
    (cid content : String) (conv : Conversation) (e : String)
    (hc : AIClient.get_conversation st cid = some conv)
    (hb : backend ((conv.add_message
        (Message.init g content MessageRole.user none none).1).messages.map
        Message.to_dict) = .error e) :
    AIClient.send_message st g backend cid content =
      (⟨dictSet st.conversations cid
          (conv.add_message (Message.init g content MessageRole.user none none).1)⟩,
        (Message.init g content MessageRole.user none none).2,
        .error (.backend ("Error communicating with OpenAI API: " ++ e))) := by
  unfold AIClient.send_message
  rw [hc]
  dsimp only
  rw [hb]

theorem send_message_found_ok (st : AIClient) (g : Gen) (backend : Backend)
    (cid content : String) (conv : Conversation) (rc : String)
    (hc : AIClient.get_conversation st cid = some conv)
    (hb : backend ((conv.add_message
        (Message.init g content MessageRole.user none none).1).messages.map
        Message.to_dict) = .ok rc) :
    AIClient.send_message st g backend cid content =
      (⟨dictSet (dictSet st.conversations cid
            (conv.add_message (Message.init g content MessageRole.user none none).1)) cid
          ((conv.add_message (Message.init g content MessageRole.user none none).1).add_message
            (Message.init (Message.init g content MessageRole.user none none).2 rc
              MessageRole.assistant none none).1)⟩,
        (Message.init (Message.init g content MessageRole.user none none).2 rc
          MessageRole.assistant none none).2,
        .ok (Message.init (Message.init g content MessageRole.user none none).2 rc
          MessageRole.assistant none none).1) := by
  unfold AIClient.send_message
  rw [hc]
  dsimp only
  rw [hb]

/-! ## Claim C1 -/

/-- C1 counterexample: the claim asserts `parse("-10") = 0.0`, but the
regex `\d+(?:\.\d+)?` carries no sign, so the first numeral found in
`"-10"` is `10` and the parsed, clamped score is `10.0`, not `0.0`. -/
theorem parse_neg_ten_counterexample :
    ScoreExtractor.parse "-10" = 10 ∧ ¬ ScoreExtractor.parse "-10" = 0 := by
  decide

/-- C1 (amended): score extraction is total; it returns the first
*unsigned* integer-or-decimal numeral of the text clamped to [0, 100] — a
leading minus sign is not part of the numeral, so `parse("-10") = 10.0` —
and `0.0` when the text has no digit at all; the three other quoted
examples hold as stated: `parse("75% probability of spam") = 75.0`,
`parse("This looks legitimate.") = 0.0`, `parse("150") = 100.0`. -/
theorem parse_first_unsigned_numeral_clamped :
    ScoreExtractor.parse "75% probability of spam" = 75 ∧
    ScoreExtractor.parse "This looks legitimate." = 0 ∧
    ScoreExtractor.parse "150" = 100 ∧
    ScoreExtractor.parse "-10" = 10 ∧
    (∀ s : String, 0 ≤ ScoreExtractor.parse s ∧ ScoreExtractor.parse s ≤ 100) ∧
    (∀ s : String, (∀ c ∈ s.toList, c.isDigit = false) → ScoreExtractor.parse s = 0) := by
  refine ⟨by decide, by decide, by decide, by decide, parse_bounds, ?_⟩
  intro s hs
  unfold ScoreExtractor.parse
  rw [findNumeral_eq_none s.toList hs]

/-- C1 witness: the amended theorem applied at a concrete digit-free
input. -/
theorem parse_first_unsigned_numeral_clamped_witness :
    ScoreExtractor.parse "no digits at all" = 0 :=
  parse_first_unsigned_numeral_clamped.2.2.2.2.2 "no digits at all" (by decide)

/-! ## Claim C4 -/

/-- C4: `send_message` on a conversation id absent from the manager's
collection fails with the not-found error (the
`ValueError("Conversation with ID ... not found")` raise site, the spec's
NotFoundError) and returns the stored state — every conversation and its
message list — and the id/time supply unchanged. -/
theorem send_message_unknown_id (st : AIClient) (g : Gen) (backend : Backend)
    (cid content : String) (h : AIClient.get_conversation st cid = none) :
    AIClient.send_message st g backend cid content = (st, g, .error (.notFound cid)) := by
  unfold AIClient.send_message
  rw [h]

/-- C4 witness: concrete unknown id on an empty client. -/
theorem send_message_unknown_id_witness :
    AIClient.send_message ⟨[]⟩ ⟨0, 0⟩ (fun _ => .ok "hi") "c1" "hello" =
      (⟨[]⟩, ⟨0, 0⟩, .error (.notFound "c1")) :=
  send_message_unknown_id ⟨[]⟩ ⟨0, 0⟩ (fun _ => .ok "hi") "c1" "hello" (by decide)

/-! ## Claim C3 -/

/-- C3: a successful `send_message` on a registered conversation appends
exactly two messages to it — a user-role message carrying the given
content, then an assistant-role message — in that order, and the returned
message is that appended assistant message (it appears verbatim as the
last element). -/
theorem send_message_appends_user_then_assistant (st : AIClient) (g : Gen)
    (backend : Backend) (cid content : String) (st' : AIClient) (g' : Gen) (m : Message)
    (h : AIClient.send_message st g backend cid content = (st', g', .ok m)) :
    ∃ conv userMsg,
      AIClient.get_conversation st cid = some conv ∧
      AIClient.get_conversation st' cid =
        some ⟨conv.id, conv.title, conv.messages ++ [userMsg, m]⟩ ∧
      userMsg.role = .user ∧ userMsg.content = content ∧
      m.role = .assistant := by
  cases hc : AIClient.get_conversation st cid with
  | none =>
    rw [send_message_not_found_eq st g backend cid content hc] at h
    simp at h
  | some conv =>
    cases hb : backend ((conv.add_message
        (Message.init g content MessageRole.user none none).1).messages.map
        Message.to_dict) with
    | error e =>
      rw [send_message_found_error st g backend cid content conv e hc hb] at h
      simp at h
    | ok rc =>
      rw [send_message_found_ok st g backend cid content conv rc hc hb] at h
      simp only [Prod.mk.injEq, Except.ok.injEq] at h
      obtain ⟨h1, _h2, h3⟩ := h
      refine ⟨conv, (Message.init g content MessageRole.user none none).1, rfl, ?_, rfl, rfl, ?_⟩
      · rw [← h1]
        unfold AIClient.get_conversation
        rw [dictGet_dictSet_self]
        rw [← h3]
        simp [Conversation.add_message]
      · rw [← h3]
        rfl

/-- C3 witness: a concrete successful send on a one-conversation client. -/
theorem send_message_appends_user_then_assistant_witness :
    ∃ conv userMsg,
      AIClient.get_conversation ⟨[("c1", ⟨"c1", "T", []⟩)]⟩ "c1" = some conv ∧
      AIClient.get_conversation
          ⟨[("c1", ⟨"c1", "T", [⟨"ping", .user, "msg_0", 0⟩,
            ⟨"pong", .assistant, "msg_1", 0⟩]⟩)]⟩ "c1" =
        some ⟨conv.id, conv.title,
          conv.messages ++ [userMsg, ⟨"pong", .assistant, "msg_1", 0⟩]⟩ ∧
      userMsg.role = .user ∧ userMsg.content = "ping" ∧
      Message.role ⟨"pong", .assistant, "msg_1", 0⟩ = .assistant :=
  send_message_appends_user_then_assistant ⟨[("c1", ⟨"c1", "T", []⟩)]⟩ ⟨0, 0⟩
    (fun _ => .ok "pong") "c1" "ping"
    ⟨[("c1", ⟨"c1", "T", [⟨"ping", .user, "msg_0", 0⟩, ⟨"pong", .assistant, "msg_1", 0⟩]⟩)]⟩
    ⟨2, 0⟩ ⟨"pong", .assistant, "msg_1", 0⟩ (by rfl)

/-! ## Claim C5 -/

/-- C5: when the backend call inside `send_message` on a registered
conversation fails, the failure surfaces as the backend-error wrap (the
`ConnectionError("Error communicating with OpenAI API: ...")` raise site,
the BackendError of the spec, wrapping the provider failure text rather than
leaking it as any other error kind), and the just-appended user message
stays in the conversation: the send is not rolled back, so the stored
message count of the stored conversation grows by exactly one. -/
theorem send_message_backend_failure_wraps (st : AIClient) (g : Gen)
    (backend : Backend) (cid content : String) (conv : Conversation) (e : String)
    (hc : AIClient.get_conversation st cid = some conv)
    (hb : backend ((conv.add_message
        (Message.init g content MessageRole.user none none).1).messages.map
        Message.to_dict) = .error e) :
    ∃ userMsg : Message,
      userMsg.role = .user ∧ userMsg.content = content ∧
      AIClient.send_message st g backend cid content =
        (⟨dictSet st.conversations cid (conv.add_message userMsg)⟩,
          (Message.init g content MessageRole.user none none).2,
          .error (.backend ("Error communicating with OpenAI API: " ++ e))) ∧
      AIClient.get_conversation (AIClient.send_message st g backend cid content).1 cid
        = some (conv.add_message userMsg) ∧
      (conv.add_message userMsg).messages.length = conv.messages.length + 1 := by
  refine ⟨(Message.init g content MessageRole.user none none).1, rfl, rfl,
    send_message_found_error st g backend cid content conv e hc hb, ?_, ?_⟩
  · rw [send_message_found_error st g backend cid content conv e hc hb]
    unfold AIClient.get_conversation
    exact dictGet_dictSet_self _ _ _
  · simp [Conversation.add_message]

/-- C5 witness: a concrete failing backend on a one-conversation client. -/
theorem send_message_backend_failure_wraps_witness :
    ∃ userMsg : Message,
      userMsg.role = .user ∧ userMsg.content = "ping" ∧
      AIClient.send_message ⟨[("c1", ⟨"c1", "T", []⟩)]⟩ ⟨0, 0⟩ (fun _ => .error "boom")
          "c1" "ping" =
        (⟨dictSet [("c1", ⟨"c1", "T", []⟩)] "c1"
            (Conversation.add_message ⟨"c1", "T", []⟩ userMsg)⟩,
          (Message.init ⟨0, 0⟩ "ping" MessageRole.user none none).2,
          .error (.backend ("Error communicating with OpenAI API: " ++ "boom"))) ∧
      AIClient.get_conversation
          (AIClient.send_message ⟨[("c1", ⟨"c1", "T", []⟩)]⟩ ⟨0, 0⟩
            (fun _ => .error "boom") "c1" "ping").1 "c1"
        = some (Conversation.add_message ⟨"c1", "T", []⟩ userMsg) ∧
      (Conversation.add_message ⟨"c1", "T", []⟩ userMsg).messages.length =
        (Conversation.messages ⟨"c1", "T", []⟩).length + 1 :=
  send_message_backend_failure_wraps ⟨[("c1", ⟨"c1", "T", []⟩)]⟩ ⟨0, 0⟩
    (fun _ => .error "boom") "c1" "ping" ⟨"c1", "T", []⟩ "boom" (by decide) (by rfl)

/-! ## Claim C6 -/

/-- C6 counterexample: the claim says whitespace-only content (empty after
trimming) makes `Message` construction and `send_message` fail with
ValidationError, and that stored content is trimmed.  In the code
`Message.__init__` performs no validation or trimming and `send_message`
none either: with the all-whitespace content `"   "` construction succeeds
storing `"   "` verbatim, and `send_message` succeeds. -/
theorem message_no_validation_counterexample :
    "   ".toList.all Char.isWhitespace = true ∧
    (Message.init ⟨0, 0⟩ "   " MessageRole.user none none).1.content = "   " ∧
    (AIClient.send_message ⟨[("c1", ⟨"c1", "T", []⟩)]⟩ ⟨0, 0⟩ (fun _ => .ok "ok")
        "c1" "   ").2.2 = .ok ⟨"ok", .assistant, "msg_1", 0⟩ := by
  refine ⟨by decide, rfl, by rfl⟩

/-- C6 (amended): `Message` construction never fails and never trims — it
stores the given content verbatim, whatever it is; `send_message` performs
no content validation either: on a registered conversation with a
succeeding backend it succeeds for every content string, including ones
that are empty after trimming. -/
theorem message_content_unvalidated (g : Gen) (content : String) (role : MessageRole)
    (mid : Option String) (ts : Option Nat) (st : AIClient) (cid : String)
    (conv : Conversation) (backend : Backend) (resp : String)
    (hc : AIClient.get_conversation st cid = some conv)
    (hb : ∀ hist, backend hist = .ok resp) :
    (Message.init g content role mid ts).1.content = content ∧
    (Message.init g content role mid ts).1.role = role ∧
    ∃ st' g' m, AIClient.send_message st g backend cid content = (st', g', .ok m) :=
  ⟨(Message.init_content g content role mid ts).1,
    (Message.init_content g content role mid ts).2,
    _, _, _, send_message_found_ok st g backend cid content conv resp hc (hb _)⟩

theorem foldl_add_messages (l : List Message) : ∀ c : Conversation,
    (l.foldl Conversation.add_message c).messages = c.messages ++ l := by
  induction l with
  | nil => intro c; simp
  | cons m rest ih =>
    intro c
    rw [List.foldl_cons, ih]
    simp [Conversation.add_message]

theorem init_with_prompt (g : Gen) (cid title : Option String) (p : String)
    (hp : ¬ p = "") :
    ∃ m0 : Message, (Conversation.init g cid title (some p)).1.messages = [m0] ∧
      m0.role = .system ∧ m0.content = p := by
  unfold Conversation.init
  dsimp only
  rw [if_neg hp]
  exact ⟨_, rfl, (Message.init_content _ p MessageRole.system none none).2,
    (Message.init_content _ p MessageRole.system none none).1⟩

/-- C6 witness: the amended theorem at whitespace-only content. -/
theorem message_content_unvalidated_witness :
    (Message.init ⟨0, 0⟩ "   " MessageRole.user none none).1.content = "   " ∧
    (Message.init ⟨0, 0⟩ "   " MessageRole.user none none).1.role = MessageRole.user ∧
    ∃ st' g' m, AIClient.send_message ⟨[("c1", ⟨"c1", "T", []⟩)]⟩ ⟨0, 0⟩
      (fun _ => .ok "ok") "c1" "   " = (st', g', .ok m) :=
  message_content_unvalidated ⟨0, 0⟩ "   " MessageRole.user none none
    ⟨[("c1", ⟨"c1", "T", []⟩)]⟩ "c1" ⟨"c1", "T", []⟩ (fun _ => .ok "ok") "ok"
    (by decide) (fun _ => rfl)

/-! ## Claim C7 -/

/-- C7: a conversation constructed with a non-empty system prompt starts
as the single seeded system message, and after any sequence of appends —
the only mutation the conversation offers, and the manager only ever
appends user/assistant messages — that system message still occupies
position 0 and is the only system-role message. -/
theorem system_prompt_first_and_unique (g : Gen) (cid title : Option String)
    (p : String) (hp : ¬ p = "") (appended : List Message)
    (hroles : ∀ m ∈ appended, m.role ≠ MessageRole.system) :
    ∃ m0 : Message,
      (Conversation.init g cid title (some p)).1.messages = [m0] ∧
      m0.role = .system ∧ m0.content = p ∧
      (appended.foldl Conversation.add_message
          (Conversation.init g cid title (some p)).1).messages = m0 :: appended ∧
      (appended.foldl Conversation.add_message
          (Conversation.init g cid title (some p)).1).messages.countP
        (fun m => decide (m.role = MessageRole.system)) = 1 := by
  obtain ⟨m0, hms, hrole, hcontent⟩ := init_with_prompt g cid title p hp
  have hfold : (appended.foldl Conversation.add_message
      (Conversation.init g cid title (some p)).1).messages = m0 :: appended := by
    rw [foldl_add_messages, hms]
    simp
  have h0 : appended.countP (fun m => decide (m.role = MessageRole.system)) = 0 :=
    List.countP_eq_zero.mpr (by intro a ha; simpa using hroles a ha)
  refine ⟨m0, hms, hrole, hcontent, hfold, ?_⟩
  rw [hfold]
  simp [List.countP_cons, hrole, h0]

/-- C7 witness: a system prompt followed by one appended user message. -/
theorem system_prompt_first_and_unique_witness :
    ∃ m0 : Message,
      (Conversation.init ⟨0, 0⟩ none none (some "Be helpful")).1.messages = [m0] ∧
      m0.role = .system ∧ m0.content = "Be helpful" ∧
      ([(⟨"hi", .user, "m7", 0⟩ : Message)].foldl Conversation.add_message
          (Conversation.init ⟨0, 0⟩ none none (some "Be helpful")).1).messages
        = m0 :: [⟨"hi", .user, "m7", 0⟩] ∧
      ([(⟨"hi", .user, "m7", 0⟩ : Message)].foldl Conversation.add_message
          (Conversation.init ⟨0, 0⟩ none none (some "Be helpful")).1).messages.countP
        (fun m => decide (m.role = MessageRole.system)) = 1 :=
  system_prompt_first_and_unique ⟨0, 0⟩ none none "Be helpful" (by decide)
    [⟨"hi", .user, "m7", 0⟩] (by decide)

/-! ## Claim C8 -/

theorem role_value_roundtrip (r : MessageRole) : MessageRole.ofValue r.value = some r := by
  cases r <;> rfl

theorem from_dictMsgs_spec (ms : List Message) : ∀ (c : Conversation) (g : Gen),
    ∃ (ns : List Message) (g' : Gen),
      Conversation.from_dictMsgs c g (ms.map msgToDict)
        = .ok (⟨c.id, c.title, c.messages ++ ns⟩, g') ∧
      List.Forall₂ (fun m n => m.content = n.content ∧ m.role = n.role) ms ns := by
  induction ms with
  | nil =>
    intro c g
    exact ⟨[], g, by simp [Conversation.from_dictMsgs], List.Forall₂.nil⟩
  | cons m rest ih =>
    intro c g
    simp only [List.map_cons, Conversation.from_dictMsgs]
    rw [show (msgToDict m).role.getD "user" = m.role.value from rfl, role_value_roundtrip]
    dsimp only
    obtain ⟨ns, g', hok, hfa⟩ := ih (c.add_message
      (Message.init g ((msgToDict m).content.getD "") m.role (msgToDict m).id
        (parseTimestamp g (msgToDict m).timestamp)).1)
      (Message.init g ((msgToDict m).content.getD "") m.role (msgToDict m).id
        (parseTimestamp g (msgToDict m).timestamp)).2
    rw [hok]
    refine ⟨(Message.init g ((msgToDict m).content.getD "") m.role (msgToDict m).id
      (parseTimestamp g (msgToDict m).timestamp)).1 :: ns, g', ?_, ?_⟩
    · simp [Conversation.add_message]
    · refine List.Forall₂.cons ⟨?_, ?_⟩ hfa
      · exact ((Message.init_content _ _ m.role _ _).1).symm
      · exact ((Message.init_content _ _ m.role _ _).2).symm

/-- C8: serializing a valid conversation (one whose id and title are
non-empty, as in every constructed conversation — Python truthiness
regenerates falsy ones) and deserializing the result succeeds and
reproduces the id, the title, the message count, and the per-position
message content and role in order. -/
theorem conversation_roundtrip (c : Conversation) (g : Gen)
    (hid : ¬ c.id = "") (htitle : ¬ c.title = "") :
    ∃ (c' : Conversation) (g' : Gen),
      Conversation.from_dict g c.to_dict = .ok (c', g') ∧
      c'.id = c.id ∧ c'.title = c.title ∧
      c'.messages.length = c.messages.length ∧
      List.Forall₂ (fun m m' => m.content = m'.content ∧ m.role = m'.role)
        c.messages c'.messages := by
  have hinit : Conversation.init g (some c.id) (some c.title) none
      = (⟨c.id, c.title, []⟩, g) := by
    unfold Conversation.init
    dsimp only
    rw [if_neg hid, if_neg htitle]
  unfold Conversation.from_dict Conversation.to_dict
  dsimp only
  rw [hinit]
  obtain ⟨ns, g', hok, hfa⟩ := from_dictMsgs_spec c.messages ⟨c.id, c.title, []⟩ g
  rw [hok]
  exact ⟨⟨c.id, c.title, ns⟩, g', rfl, rfl, rfl,
    (List.Forall₂.length_eq hfa).symm, hfa⟩

/-- C8 witness: the round trip on a concrete two-message conversation. -/
theorem conversation_roundtrip_witness :
    ∃ (c' : Conversation) (g' : Gen),
      Conversation.from_dict ⟨0, 0⟩
          (Conversation.to_dict ⟨"c9", "T9", [⟨"hello", .user, "m1", 5⟩,
            ⟨"42", .assistant, "m2", 6⟩]⟩) = .ok (c', g') ∧
      c'.id = Conversation.id ⟨"c9", "T9", [⟨"hello", .user, "m1", 5⟩,
        ⟨"42", .assistant, "m2", 6⟩]⟩ ∧
      c'.title = Conversation.title ⟨"c9", "T9", [⟨"hello", .user, "m1", 5⟩,
        ⟨"42", .assistant, "m2", 6⟩]⟩ ∧
      c'.messages.length = (Conversation.messages ⟨"c9", "T9",
        [⟨"hello", .user, "m1", 5⟩, ⟨"42", .assistant, "m2", 6⟩]⟩).length ∧
      List.Forall₂ (fun m m' => m.content = m'.content ∧ m.role = m'.role)
        (Conversation.messages ⟨"c9", "T9", [⟨"hello", .user, "m1", 5⟩,
          ⟨"42", .assistant, "m2", 6⟩]⟩) c'.messages :=
  conversation_roundtrip ⟨"c9", "T9", [⟨"hello", .user, "m1", 5⟩,
    ⟨"42", .assistant, "m2", 6⟩]⟩ ⟨0, 0⟩ (by decide) (by decide)

/-! ## Claim C9 -/

/-- C9: the `messages` property returns a defensive copy.  In the heap
model of Python list objects, the property allocates a fresh cell holding
the stored elements; the freshly returned cell initially reads equal to the
stored one, and overwriting the contents of the returned cell with any mutation
(append, remove, reorder — any rewrite) leaves the contents of the stored cell
unchanged. -/
theorem messages_defensive_copy (h : PyHeap.Heap) (stored : Nat)
    (hlt : stored < h.cells.length) (mutate : List Message → List Message) :
    PyHeap.read (PyHeap.messagesProp h stored).2 (PyHeap.messagesProp h stored).1
      = PyHeap.read h stored ∧
    PyHeap.read
      (PyHeap.write (PyHeap.messagesProp h stored).2 (PyHeap.messagesProp h stored).1
        (mutate (PyHeap.read (PyHeap.messagesProp h stored).2
          (PyHeap.messagesProp h stored).1)))
      stored = PyHeap.read h stored := by
  have hne : stored ≠ h.cells.length := Nat.ne_of_lt hlt
  unfold PyHeap.messagesProp PyHeap.alloc PyHeap.write PyHeap.read
  dsimp only
  constructor
  · rw [List.getElem?_concat_length]
    rfl
  · rw [List.getElem?_set_ne (Ne.symm hne), List.getElem?_append_left hlt]

/-- C9 witness: one stored cell, the copy appended to. -/
theorem messages_defensive_copy_witness :
    PyHeap.read (PyHeap.messagesProp ⟨[[⟨"a", .user, "m1", 0⟩]]⟩ 0).2
        (PyHeap.messagesProp ⟨[[⟨"a", .user, "m1", 0⟩]]⟩ 0).1
      = PyHeap.read ⟨[[⟨"a", .user, "m1", 0⟩]]⟩ 0 ∧
    PyHeap.read
      (PyHeap.write (PyHeap.messagesProp ⟨[[⟨"a", .user, "m1", 0⟩]]⟩ 0).2
        (PyHeap.messagesProp ⟨[[⟨"a", .user, "m1", 0⟩]]⟩ 0).1
        ((PyHeap.read (PyHeap.messagesProp ⟨[[⟨"a", .user, "m1", 0⟩]]⟩ 0).2
          (PyHeap.messagesProp ⟨[[⟨"a", .user, "m1", 0⟩]]⟩ 0).1) ++
          [⟨"b", .user, "m2", 0⟩]))
      0 = PyHeap.read ⟨[[⟨"a", .user, "m1", 0⟩]]⟩ 0 :=
  messages_defensive_copy ⟨[[⟨"a", .user, "m1", 0⟩]]⟩ 0 (by decide)
    (fun l => l ++ [⟨"b", .user, "m2", 0⟩])

/-! ## Claim C10 -/

/-- The conversations a record list deserializes to, threading the supply:
the pure content of the `load_conversations` loop. -/
def convsOf (g : Gen) : List ConversationDict → Except String (List Conversation × Gen)
  | [] => .ok ([], g)
  | d :: rest =>
    match Conversation.from_dict g d with
    | .error e => .error e
    | .ok cg =>
      match convsOf cg.2 rest with
      | .error e => .error e
      | .ok csg => .ok (cg.1 :: csg.1, csg.2)

/-- Storing a list of conversations in order, each under its id. -/
def storeAll (st : AIClient) (cs : List Conversation) : AIClient :=
  cs.foldl (fun s c => ⟨dictSet s.conversations c.id c⟩) st

theorem load_eq_storeAll : ∀ (records : List ConversationDict) (st : AIClient)
    (g : Gen) (cs : List Conversation) (g' : Gen),
    convsOf g records = .ok (cs, g') →
    AIClient.load_conversations st g records = (storeAll st cs, g', .ok ()) := by
  intro records
  induction records with
  | nil =>
    intro st g cs g' h
    simp only [convsOf, Except.ok.injEq, Prod.mk.injEq] at h
    obtain ⟨h1, h2⟩ := h
    subst h1; subst h2
    rfl
  | cons d rest ih =>
    intro st g cs g' h
    unfold convsOf at h
    cases hd : Conversation.from_dict g d with
    | error e => rw [hd] at h; simp at h
    | ok cg =>
      rw [hd] at h
      dsimp only at h
      cases hr : convsOf cg.2 rest with
      | error e => rw [hr] at h; simp at h
      | ok csg =>
        rw [hr] at h
        simp only [Except.ok.injEq, Prod.mk.injEq] at h
        obtain ⟨h1, h2⟩ := h
        subst h1; subst h2
        unfold AIClient.load_conversations
        rw [hd]
        dsimp only
        rw [ih ⟨dictSet st.conversations cg.1.id cg.1⟩ cg.2 csg.1 csg.2 (by rw [hr])]
        simp [storeAll]

theorem storeAll_not_mem : ∀ (cs : List Conversation) (st : AIClient) (k : String),
    (∀ c ∈ cs, c.id ≠ k) →
    dictGet (storeAll st cs).conversations k = dictGet st.conversations k := by
  intro cs
  induction cs with
  | nil => intro st k _; rfl
  | cons c rest ih =>
    intro st k h
    simp only [storeAll, List.foldl_cons]
    rw [show List.foldl (fun s c => AIClient.mk (dictSet s.conversations c.id c))
        ⟨dictSet st.conversations c.id c⟩ rest
      = storeAll ⟨dictSet st.conversations c.id c⟩ rest from rfl]
    rw [ih ⟨dictSet st.conversations c.id c⟩ k
      (fun c' hc' => h c' (List.mem_cons_of_mem c hc'))]
    exact dictGet_dictSet_ne st.conversations c.id k c
      (Ne.symm (h c (List.mem_cons_self c rest)))

theorem storeAll_append (st : AIClient) (cs1 cs2 : List Conversation) :
    storeAll st (cs1 ++ cs2) = storeAll (storeAll st cs1) cs2 := by
  simp [storeAll, List.foldl_append]

/-- C10: loading a record list merges into the existing collection: the
load stores each deserialized conversation under its id in file order (so
the last record with a given id wins and overwrites any previously stored
conversation under that id), and every previously stored conversation
whose id none of the loaded conversations carries is still found
unchanged. -/
theorem load_conversations_merge (st : AIClient) (g : Gen)
    (records : List ConversationDict) (cs : List Conversation) (g' : Gen)
    (h : convsOf g records = .ok (cs, g')) :
    AIClient.load_conversations st g records = (storeAll st cs, g', .ok ()) ∧
    (∀ k, (∀ c ∈ cs, c.id ≠ k) →
      dictGet (AIClient.load_conversations st g records).1.conversations k
        = dictGet st.conversations k) ∧
    (∀ (pre : List Conversation) (c : Conversation) (post : List Conversation),
      cs = pre ++ c :: post → (∀ c' ∈ post, c'.id ≠ c.id) →
      dictGet (AIClient.load_conversations st g records).1.conversations c.id
        = some c) := by
  have hload := load_eq_storeAll records st g cs g' h
  refine ⟨hload, ?_, ?_⟩
  · intro k hk
    rw [hload]
    exact storeAll_not_mem cs st k hk
  · intro pre c post hcs hpost
    rw [hload]
    dsimp only
    subst hcs
    rw [storeAll_append]
    rw [show storeAll (storeAll st pre) (c :: post)
      = storeAll ⟨dictSet (storeAll st pre).conversations c.id c⟩ post from rfl]
    rw [storeAll_not_mem post ⟨dictSet (storeAll st pre).conversations c.id c⟩ c.id hpost]
    exact dictGet_dictSet_self _ _ _

/-- C10 witness: a two-conversation store, a file overwriting one of them;
the overwritten id is found updated and the untouched id unchanged. -/
theorem load_conversations_merge_witness :
    dictGet (AIClient.load_conversations ⟨[("a", ⟨"a", "A", []⟩), ("b", ⟨"b", "B", []⟩)]⟩
        ⟨0, 0⟩ [⟨some "b", some "B2", []⟩]).1.conversations "b" = some ⟨"b", "B2", []⟩ ∧
    dictGet (AIClient.load_conversations ⟨[("a", ⟨"a", "A", []⟩), ("b", ⟨"b", "B", []⟩)]⟩
        ⟨0, 0⟩ [⟨some "b", some "B2", []⟩]).1.conversations "a"
      = dictGet [("a", ⟨"a", "A", []⟩), ("b", ⟨"b", "B", []⟩)] "a" :=
  ⟨(load_conversations_merge ⟨[("a", ⟨"a", "A", []⟩), ("b", ⟨"b", "B", []⟩)]⟩ ⟨0, 0⟩
      [⟨some "b", some "B2", []⟩] [⟨"b", "B2", []⟩] ⟨0, 0⟩ (by rfl)).2.2
      [] ⟨"b", "B2", []⟩ [] rfl (by simp),
    (load_conversations_merge ⟨[("a", ⟨"a", "A", []⟩), ("b", ⟨"b", "B", []⟩)]⟩ ⟨0, 0⟩
      [⟨some "b", some "B2", []⟩] [⟨"b", "B2", []⟩] ⟨0, 0⟩ (by rfl)).2.1
      "a" (by decide)⟩

/-! ## Claim C2 -/

theorem analyze_email_fail (st : AIClient) (g : Gen) (backend : Backend)
    (cid body : String) (conv : Conversation) (e : String)
    (hc : AIClient.get_conversation st cid = some conv)
    (hb : ∀ hist, backend hist = .error e) :
    (SpamDetector.analyze_email st g backend cid body).1 = 0 ∧
    ∃ conv', AIClient.get_conversation
      (SpamDetector.analyze_email st g backend cid body).2.1 cid = some conv' := by
  unfold SpamDetector.analyze_email
  dsimp only
  rw [send_message_found_error st g backend cid _ conv e hc (hb _)]
  dsimp only
  exact ⟨rfl, _, dictGet_dictSet_self _ _ _⟩

theorem analyze_email_ok (st : AIClient) (g : Gen) (backend : Backend)
    (cid body : String) (conv : Conversation) (resp : String)
    (hc : AIClient.get_conversation st cid = some conv)
    (hb : ∀ hist, backend hist = .ok resp) :
    (SpamDetector.analyze_email st g backend cid body).1 = ScoreExtractor.parse resp ∧
    ∃ conv', AIClient.get_conversation
      (SpamDetector.analyze_email st g backend cid body).2.1 cid = some conv' := by
  unfold SpamDetector.analyze_email
  dsimp only
  rw [send_message_found_ok st g backend cid _ conv resp hc (hb _)]
  dsimp only
  exact ⟨rfl, _, dictGet_dictSet_self _ _ _⟩

theorem analyze_inboxLoop_spec (oracle : Nat → Backend) (cid : String) (j : Nat)
    (e : String) (resp : Nat → String)
    (hfail : ∀ hist, oracle j hist = .error e)
    (hok : ∀ i, i ≠ j → ∀ hist, oracle i hist = .ok (resp i)) :
    ∀ (ms : List EmailMessage) (i0 : Nat) (st : AIClient) (g : Gen)
      (conv : Conversation), AIClient.get_conversation st cid = some conv →
      (SpamDetector.analyze_inboxLoop oracle cid ms i0 st g).1
        = (List.enumFrom i0 ms).map
            (fun p => (p.2.id, if p.1 = j then 0 else ScoreExtractor.parse (resp p.1))) := by
  intro ms
  induction ms with
  | nil => intro i0 st g conv _; rfl
  | cons m rest ih =>
    intro i0 st g conv hc
    unfold SpamDetector.analyze_inboxLoop
    dsimp only
    by_cases hi : i0 = j
    · subst hi
      obtain ⟨hsc, conv', hconv'⟩ :=
        analyze_email_fail st g (oracle i0) cid m.body conv e hc hfail
      rw [hsc, ih (i0 + 1) _ _ conv' hconv']
      simp [List.enumFrom_cons]
    · obtain ⟨hsc, conv', hconv'⟩ :=
        analyze_email_ok st g (oracle i0) cid m.body conv (resp i0) hc (hok i0 hi)
      rw [hsc, ih (i0 + 1) _ _ conv' hconv']
      simp [List.enumFrom_cons, hi]

theorem analyze_inboxLoop_length (oracle : Nat → Backend) (cid : String) :
    ∀ (ms : List EmailMessage) (i0 : Nat) (st : AIClient) (g : Gen),
      (SpamDetector.analyze_inboxLoop oracle cid ms i0 st g).1.length = ms.length := by
  intro ms
  induction ms with
  | nil => intro i0 st g; rfl
  | cons m rest ih =>
    intro i0 st g
    unfold SpamDetector.analyze_inboxLoop
    dsimp only
    rw [List.length_cons, ih]
    rfl

/-- C2: the batch analyzer emits exactly one row per processed item (the
fetched items, bounded by `limit` when given), in source order, carrying
the item id; whatever the backend calls do, the output length equals the
processed-item count — failure degrades a score, never drops a row; and
when exactly one backend call — say call `j` — raises while every other
call returns its response, row `j` scores `0.0` and every other row
carries the parsed score of its own response. -/
theorem analyze_inbox_per_item_isolation (oracle : Nat → Backend) (cid : String)
    (st : AIClient) (g : Gen) (conv : Conversation) (msgs : List EmailMessage)
    (limit : Option Nat) (j : Nat) (e : String) (resp : Nat → String)
    (hconv : AIClient.get_conversation st cid = some conv)
    (hfail : ∀ hist, oracle j hist = .error e)
    (hok : ∀ i, i ≠ j → ∀ hist, oracle i hist = .ok (resp i)) :
    (SpamDetector.analyze_inbox oracle cid st g msgs limit).1
      = (List.enumFrom 0 (SpamDetector.get_messages msgs limit)).map
          (fun p => (p.2.id, if p.1 = j then 0 else ScoreExtractor.parse (resp p.1))) ∧
    (SpamDetector.analyze_inbox oracle cid st g msgs limit).1.length
      = (SpamDetector.get_messages msgs limit).length ∧
    (∀ k, limit = some k →
      (SpamDetector.get_messages msgs limit).length = min k msgs.length) ∧
    (∀ (oracle2 : Nat → Backend) (st2 : AIClient) (g2 : Gen),
      (SpamDetector.analyze_inbox oracle2 cid st2 g2 msgs limit).1.length
        = (SpamDetector.get_messages msgs limit).length) := by
  have hmain := analyze_inboxLoop_spec oracle cid j e resp hfail hok
    (SpamDetector.get_messages msgs limit) 0 st g conv hconv
  refine ⟨hmain, ?_, ?_, ?_⟩
  · show (SpamDetector.analyze_inboxLoop oracle cid
      (SpamDetector.get_messages msgs limit) 0 st g).1.length
      = (SpamDetector.get_messages msgs limit).length
    rw [hmain]
    simp
  · intro k hk
    subst hk
    simp [SpamDetector.get_messages]
  · intro oracle2 st2 g2
    exact analyze_inboxLoop_length oracle2 cid (SpamDetector.get_messages msgs limit) 0 st2 g2

/-- C2 witness: three items, the second backend call raising. -/
theorem analyze_inbox_per_item_isolation_witness :
    (SpamDetector.analyze_inbox
        (fun i _ => if i = 1 then Except.error "boom" else Except.ok "42") "c1"
        ⟨[("c1", ⟨"c1", "T", []⟩)]⟩ ⟨0, 0⟩
        [⟨"m1", "b1"⟩, ⟨"m2", "b2"⟩, ⟨"m3", "b3"⟩] none).1
      = (List.enumFrom 0 (SpamDetector.get_messages
          [⟨"m1", "b1"⟩, ⟨"m2", "b2"⟩, ⟨"m3", "b3"⟩] none)).map
          (fun p => (p.2.id, if p.1 = 1 then 0 else ScoreExtractor.parse "42")) :=
  (analyze_inbox_per_item_isolation
    (fun i _ => if i = 1 then Except.error "boom" else Except.ok "42") "c1"
    ⟨[("c1", ⟨"c1", "T", []⟩)]⟩ ⟨0, 0⟩ ⟨"c1", "T", []⟩
    [⟨"m1", "b1"⟩, ⟨"m2", "b2"⟩, ⟨"m3", "b3"⟩] none 1 "boom" (fun _ => "42")
    (by decide) (fun _ => rfl) (fun i hi _ => by simp [hi])).1

end SpamRepo
